import Mathlib

set_option maxRecDepth 20000

/-!
Shallow embedding of the core of opencode-telegram-mirror (TypeScript) in
Lean 4, together with theorems settling the specification claims.

JavaScript strings are modelled as lists of characters (`Str`); the string
primitives the source uses (trim, trimStart, toLowerCase, slice,
lastIndexOf with a position bound) are modelled explicitly below.  Numbers
that the source uses as timestamps, chat ids and message ids are modelled
as `Int`; character counts as `Nat`.  Fallible operations that the source
wraps in a Result type are modelled with `Except`.
-/

abbrev Str := List Char

/-- Convert a Lean string literal to the character-list model. -/
def strLit (s : String) : Str := s.toList

/-- Whitespace characters recognised by the JavaScript trim family, restricted
to the characters that actually occur in this code base. -/
def isJsWhitespace (c : Char) : Bool :=
  c == ' ' || c == '\n' || c == '\t' || c == '\r'

/-- JavaScript String.prototype.trimStart. -/
def jsTrimStart : Str → Str
  | [] => []
  | c :: cs => if isJsWhitespace c then jsTrimStart cs else c :: cs

/-- JavaScript String.prototype.trimEnd. -/
def jsTrimEnd (s : Str) : Str := (jsTrimStart s.reverse).reverse

/-- JavaScript String.prototype.trim. -/
def jsTrim (s : Str) : Str := jsTrimEnd (jsTrimStart s)

/-- ASCII lower-casing of one character, as used by toLowerCase on the
command texts this code compares against. -/
def jsToLowerChar (c : Char) : Char :=
  if 'A' ≤ c ∧ c ≤ 'Z' then Char.ofNat (c.toNat + 32) else c

/-- JavaScript String.prototype.toLowerCase on ASCII content. -/
def jsToLower (s : Str) : Str := s.map jsToLowerChar

/-- Accumulator pass for jsLastIndexOf: index of the last occurrence of
needle at an index not exceeding posLimit. -/
def jsLastIndexOfAux (needle : Char) (posLimit : Nat) :
    Nat → Option Nat → Str → Option Nat
  | _, best, [] => best
  | i, best, c :: cs =>
      jsLastIndexOfAux needle posLimit (i + 1)
        (if i ≤ posLimit ∧ c = needle then some i else best) cs

/-- JavaScript String.prototype.lastIndexOf with a fromIndex argument:
the greatest index i with i at most posLimit holding needle, none when the
source returns -1. -/
def jsLastIndexOf (s : Str) (needle : Char) (posLimit : Nat) : Option Nat :=
  jsLastIndexOfAux needle posLimit 0 none s

/-! ### message-formatting.ts: formatPart on reasoning parts (claim C8) -/

/-- The MAX_SEGMENT constant of formatPart in message-formatting.ts. -/
def MAX_SEGMENT : Nat := 30

/-- The literal prefixed to rendered reasoning text. -/
def thinkingTag : Str := strLit (r"> thinking: ")

/-- formatPart from message-formatting.ts, restricted to parts of type
reasoning.  Empty (after trim) text renders as the empty string; text of at
most MAX_SEGMENT * 2 characters renders in full behind the thinking tag;
longer text renders as a beginning segment, an ellipsis and an end segment,
with the midpoint guards of the source. -/
def formatReasoningPart (text : Str) : Str :=
  if jsTrim text = [] then []
  else if text.length ≤ MAX_SEGMENT * 2 then thinkingTag ++ text
  else
    let beginning := text.take MAX_SEGMENT
    let endSeg := text.drop (text.length - MAX_SEGMENT)
    let midPoint := text.length / 2
    let safeBeginning :=
      if midPoint < beginning.length then text.take midPoint else beginning
    let safeEnd :=
      if text.length - endSeg.length < midPoint then text.drop midPoint else endSeg
    thinkingTag ++ safeBeginning ++ '…' :: safeEnd

/-! ### telegram.ts: editForumTopic request construction (claim C9) -/

/-- The request body fields that editForumTopic in telegram.ts sends to the
Telegram editForumTopic endpoint. -/
structure EditForumTopicParams where
  chat_id : Str
  message_thread_id : Int
  name : Str
deriving DecidableEq

/-- editForumTopic from telegram.ts: the request body is built directly from
the arguments, with the topic name passed through unchanged. -/
def editForumTopicParams (chatId : Str) (threadId : Int) (nm : Str) :
    EditForumTopicParams :=
  { chat_id := chatId, message_thread_id := threadId, name := nm }

/-- Modelled from the claim: the topic name is truncated to at most 128
characters, a longer name becoming its first 125 characters followed by an
ellipsis. -/
def truncateTopicNameClaim (nm : Str) : Str :=
  if nm.length ≤ 128 then nm else nm.take 125 ++ ['…']

/-! ### icloud-coordinator.ts: the shared StateRecord (claims C1, C2, C7, C10) -/

/-- The CoordinatorState record stored in the shared state.json. -/
structure CoordinatorState where
  activeDevice : Option Str
  activeDeviceHeartbeat : Int
  lastUpdateId : Int
  lastModified : Int
  modifiedBy : Str
  foreignChatIds : List Int
deriving DecidableEq

/-- The parsed content of the shared state file before migration: the
foreignChatIds field may be absent (or null), which the source detects with
a JavaScript falsiness test; an array value, even empty, is truthy. -/
structure RawStateFile where
  activeDevice : Option Str
  activeDeviceHeartbeat : Int
  lastUpdateId : Int
  lastModified : Int
  modifiedBy : Str
  foreignChatIds : Option (List Int)
deriving DecidableEq

/-- The CoordinatorState obtained from a parsed file by supplying the
foreignChatIds field. -/
def migrateRaw (raw : RawStateFile) (l : List Int) : CoordinatorState :=
  { activeDevice := raw.activeDevice
    activeDeviceHeartbeat := raw.activeDeviceHeartbeat
    lastUpdateId := raw.lastUpdateId
    lastModified := raw.lastModified
    modifiedBy := raw.modifiedBy
    foreignChatIds := l }

/-- readState from icloud-coordinator.ts: parse the state file, and when the
foreignChatIds field is missing set it to the empty list and write the
migrated record back to the shared file.  The first component is the state
returned to the caller, the second the record written to the file, if any. -/
def readState (raw : RawStateFile) : CoordinatorState × Option CoordinatorState :=
  match raw.foreignChatIds with
  | some l => (migrateRaw raw l, none)
  | none => (migrateRaw raw [], some (migrateRaw raw []))

/-- The HEARTBEAT_TIMEOUT_MS constant (90 seconds). -/
def HEARTBEAT_TIMEOUT_MS : Int := 90000

/-- JavaScript truthiness of the nullable activeDevice string field: null,
undefined and the empty string are falsy. -/
def jsTruthyStr : Option Str → Bool
  | none => false
  | some s => !s.isEmpty

/-- tryBecomeActive from icloud-coordinator.ts, modelled over the explicit
outcomes of its three store operations: the initial read, the write of the
claimed record, and the verification re-read performed after the 500 ms
replication delay (the delay itself is a real-time effect with no logical
content).  The result is the returned Result together with the StateRecord
written to the shared file, if the write path was reached. -/
def tryBecomeActive (deviceId : Str) (now : Int)
    (read1 : Except Str CoordinatorState)
    (writeOutcome : Except Str Unit)
    (read2 : Except Str CoordinatorState) :
    Except Str Bool × Option CoordinatorState :=
  match read1 with
  | .error e => (.error e, none)
  | .ok state =>
    let heartbeatAge := now - state.activeDeviceHeartbeat
    if jsTruthyStr state.activeDevice ∧ heartbeatAge < HEARTBEAT_TIMEOUT_MS then
      (.ok false, none)
    else
      let previousTimestamp := state.lastModified
      let newState : CoordinatorState :=
        { state with
            activeDevice := some deviceId
            activeDeviceHeartbeat := now
            lastModified := now
            modifiedBy := deviceId }
      match writeOutcome with
      | .error e => (.error e, none)
      | .ok _ =>
        match read2 with
        | .error e => (.error e, some newState)
        | .ok verified =>
          let weWon : Bool :=
            decide (verified.activeDevice = some deviceId ∧
              previousTimestamp ≤ verified.lastModified)
          (.ok weWon, some newState)

/-! ### icloud-coordinator.ts: addForeignChatId, and the ingest loop of
pollFromTelegram in the main module of icloud-integration.ts
(claims C2 and C7) -/

/-- The value a JavaScript promise resolves with, as far as the strict
equality test of the caller can observe: the async try-block of
addForeignChatId returns no value, so its Result carries undefined. -/
inductive JsValue where
  | undef
  | jsBool (b : Bool)
deriving DecidableEq

/-- addForeignChatId from icloud-coordinator.ts: read the shared state,
append the chat id to foreignChatIds only when it is not already present
(also stamping lastModified and modifiedBy), and write the state back.
The store operations are modelled as succeeding; the Result resolves with
undefined because the try-block returns no value. -/
def addForeignChatId (chatId : Int) (now : Int) (s : CoordinatorState) :
    CoordinatorState × Except Str JsValue :=
  if chatId ∈ s.foreignChatIds then (s, .ok .undef)
  else
    ({ s with
        foreignChatIds := s.foreignChatIds ++ [chatId]
        lastModified := now
        modifiedBy := strLit (r"foreign-chat-tracker") },
     .ok .undef)

/-- One Telegram update as the poll loop sees it: its update id and the chat
id of its message (or of its callback query's message), when present. -/
structure TgUpdate where
  update_id : Int
  chatId : Option Int
deriving DecidableEq

/-- The local per-machine SQLite state table at /tmp/telegram-opencode.db
(database module): the row the poll loop writes through setLastUpdateId. -/
structure LocalDb where
  lastUpdateId : Int
deriving DecidableEq

/-- The state the poll loop can touch: the local SQLite database and the
shared iCloud StateRecord. -/
structure PollWorld where
  localDb : LocalDb
  shared : CoordinatorState
deriving DecidableEq

/-- The aggregate warning message the foreign-chat handler would send to the
configured chat: the total number of foreign ids seen and the last five. -/
structure ForeignWarning where
  total : Nat
  lastFive : List Int
deriving DecidableEq

/-- The per-batch for-loop of pollFromTelegram: persist every update id into
the local database through setLastUpdateId, and classify each update as
accepted (chat id matches the configured chat) or foreign (collected into a
deduplicated set in insertion order). -/
def pollLoop (cfgChatId : Int) (batch : List TgUpdate) (db : LocalDb) :
    LocalDb × List TgUpdate × List Int :=
  batch.foldl
    (fun acc u =>
      let db1 : LocalDb := { lastUpdateId := u.update_id }
      match u.chatId with
      | some cid =>
        if cid = cfgChatId then (db1, acc.2.1 ++ [u], acc.2.2)
        else if cid ∈ acc.2.2 then (db1, acc.2.1, acc.2.2)
        else (db1, acc.2.1, acc.2.2 ++ [cid])
      | none => (db1, acc.2.1, acc.2.2))
    (db, [], [])

/-- The foreign-chat pass of pollFromTelegram: add every collected foreign
chat id to the shared record, and record whether any add Result resolved
with the JavaScript literal true, which is what the source compares the
Result value against to decide whether a new foreign id appeared. -/
def processForeignChats (foreignIds : List Int) (now : Int)
    (s : CoordinatorState) : CoordinatorState × Bool :=
  foreignIds.foldl
    (fun acc cid =>
      let r := addForeignChatId cid now acc.1
      let isJsTrue : Bool :=
        match r.2 with
        | .ok (.jsBool true) => true
        | _ => false
      (r.1, acc.2 || isJsTrue))
    (s, false)

/-- JavaScript Array.prototype.slice with argument -5: the last five
elements. -/
def lastFiveOf (l : List Int) : List Int := l.drop (l.length - 5)

/-- pollFromTelegram from the main module of icloud-integration.ts, reduced
to its state effects: the per-update persistence into the local database,
the chat filter, and the foreign-chat handling with its aggregate warning.
The function returns the updated world, the accepted updates, and the
warnings sent to the configured chat. -/
def pollFromTelegram (cfgChatId : Int) (useICloud : Bool) (now : Int)
    (batch : List TgUpdate) (w : PollWorld) :
    PollWorld × List TgUpdate × List ForeignWarning :=
  let r := pollLoop cfgChatId batch w.localDb
  let db1 := r.1
  let accepted := r.2.1
  let foreignIds := r.2.2
  if foreignIds ≠ [] ∧ useICloud then
    let f := processForeignChats foreignIds now w.shared
    let shared1 := f.1
    let newForeignAdded := f.2
    if newForeignAdded then
      ({ localDb := db1, shared := shared1 }, accepted,
       [{ total := shared1.foreignChatIds.length
          lastFive := lastFiveOf shared1.foreignChatIds }])
    else
      ({ localDb := db1, shared := shared1 }, accepted, [])
  else
    ({ localDb := db1, shared := w.shared }, accepted, [])

/-! ### telegram.ts: splitMessage (claim C4) -/

/-- The split-point choice of one iteration of splitMessage in telegram.ts:
the last newline at or before maxLength if that is at least half of
maxLength, otherwise the last space under the same constraint, otherwise a
hard split at maxLength. -/
def chooseSplitIndex (remaining : Str) (maxLength : Nat) : Nat :=
  let fromNewline := jsLastIndexOf remaining '\n' maxLength
  let second : Option Nat :=
    match fromNewline with
    | some i =>
      if i < maxLength / 2 then jsLastIndexOf remaining ' ' maxLength else some i
    | none => jsLastIndexOf remaining ' ' maxLength
  match second with
  | some i => if i < maxLength / 2 then maxLength else i
  | none => maxLength

/-- The while-loop of splitMessage, with fuel for termination (the caller
supplies fuel exceeding the text length, which the loop never exhausts since
every iteration removes at least one character). -/
def splitMessageGo (maxLength : Nat) : Nat → Str → List Str
  | 0, _ => []
  | fuel + 1, remaining =>
    if remaining.length = 0 then []
    else if remaining.length ≤ maxLength then [remaining]
    else
      let si := chooseSplitIndex remaining maxLength
      remaining.take si ::
        splitMessageGo maxLength fuel (jsTrimStart (remaining.drop si))

/-- splitMessage from telegram.ts: text within the limit is returned as a
single chunk, longer text is split repeatedly at chooseSplitIndex with the
remainder trimmed of leading whitespace. -/
def splitMessage (text : Str) (maxLength : Nat) : List Str :=
  if text.length ≤ maxLength then [text]
  else splitMessageGo maxLength (text.length + 1) text

/-- Whether positions i and i+1 of the text hold a paragraph boundary (two
consecutive newlines). -/
def paraAt (text : Str) (i : Nat) : Prop :=
  text.get? i = some '\n' ∧ text.get? (i + 1) = some '\n'

/-- Modelled from the claim: split points are chosen with preference
paragraph over newline over sentence over space, with a chosen boundary at
least half the limit; hence whenever a paragraph boundary lies in the
admissible window, the first chunk ends at a paragraph boundary. -/
def splitPrefParagraphClaim (text : Str) : Prop :=
  ∀ chunk, (splitMessage text 4096).head? = some chunk →
    (∃ i, 2048 ≤ i ∧ i + 1 ≤ 4096 ∧ paraAt text i) →
    paraAt text chunk.length

/-- The concrete counterexample text for claim C4: 2500 letters, a paragraph
boundary, 1498 letters, a single newline, 97 letters; 4098 characters in
total, with the paragraph boundary at index 2500 and the single newline at
index 4000. -/
def splitCexText : Str :=
  List.replicate 2500 'A' ++ '\n' :: '\n' ::
    (List.replicate 1498 'B' ++ '\n' :: List.replicate 97 'C')

/-! ### icloud-integration.ts: text streaming with markdown degradation
(claim C3) -/

/-- formatPart from message-formatting.ts restricted to text parts: empty
after trimming renders as the empty string, otherwise the text itself. -/
def formatTextPart (t : Str) : Str :=
  if jsTrim t = [] then [] else t

/-- The per-message stream state kept in the textMessages map of the event
handler.  A messageId of -1 is the placeholder meaning no Telegram message
has been created yet; usedMarkdown is the tri-state JavaScript field
(undefined before the first send, then true or false); timeoutPending
models whether a debounced edit is scheduled (timeoutId set). -/
structure TextStreamState where
  messageId : Int
  content : Str
  lastUpdate : Int
  usedMarkdown : Option Bool
  timeoutPending : Bool
deriving DecidableEq

/-- The outcome of a telegram editMessage call: a transport failure, or a
Result carrying whether the markdown attempt succeeded (false means the
plain-text retry was used). -/
inductive EditOutcome where
  | failed
  | ok (usedMarkdown : Bool)
deriving DecidableEq

/-- The outcome of a telegram sendMessage call made by the deferred-creation
branch. -/
inductive SendOutcome where
  | sfailed
  | sok (messageId : Int) (usedMarkdown : Bool)
deriving DecidableEq

/-- The Telegram calls the text-streaming handler performs, in order. -/
inductive StreamAction where
  | sendAttempt (text : Str) (outcome : SendOutcome)
  | editAttempt (messageId : Int) (text : Str) (outcome : EditOutcome)
deriving DecidableEq

/-- The events driving one text stream: an incremental part update (carrying
the part text, the current clock, and the outcomes of whatever Telegram
call the handler makes), the firing of the scheduled debounced edit, and
the step-finish flush. -/
inductive StreamEvent where
  | partUpdated (text : Str) (now : Int) (send : SendOutcome) (edit : EditOutcome)
  | timerFired (now : Int) (edit : EditOutcome)
  | stepFinish (edit : EditOutcome)
deriving DecidableEq

/-- One step of the text-streaming handler of icloud-integration.ts for an
existing stream-state entry: the update branch of the message.part.updated
handler for text parts, the debounce-timeout callback, and the step-finish
finalisation. -/
def textStep (ts : TextStreamState) (ev : StreamEvent) :
    TextStreamState × List StreamAction :=
  match ev with
  | .partUpdated text now send edit =>
    let ts1 := { ts with content := text }
    if ts1.messageId = -1 then
      let formatted := formatTextPart ts1.content
      if jsTrim formatted ≠ [] ∧ 10 < formatted.length then
        match send with
        | .sok mid md =>
          ({ ts1 with messageId := mid, lastUpdate := now, usedMarkdown := some md },
           [.sendAttempt formatted (.sok mid md)])
        | .sfailed => (ts1, [.sendAttempt formatted .sfailed])
      else (ts1, [])
    else if ts1.usedMarkdown ≠ some false then
      if 2000 ≤ now - ts1.lastUpdate then
        let ts2 := { ts1 with timeoutPending := false }
        let formatted := formatTextPart ts2.content
        if jsTrim formatted ≠ [] then
          match edit with
          | .ok mdOk =>
            if mdOk then
              ({ ts2 with lastUpdate := now },
               [.editAttempt ts2.messageId formatted (.ok true)])
            else
              ({ ts2 with usedMarkdown := some false },
               [.editAttempt ts2.messageId formatted (.ok false)])
          | .failed => (ts2, [.editAttempt ts2.messageId formatted .failed])
        else (ts2, [])
      else if ts1.timeoutPending then (ts1, [])
      else ({ ts1 with timeoutPending := true }, [])
    else (ts1, [])
  | .timerFired now edit =>
    if ts.timeoutPending then
      let ts1 := { ts with timeoutPending := false }
      let formatted := formatTextPart ts1.content
      if jsTrim formatted ≠ [] then
        match edit with
        | .ok mdOk =>
          if mdOk then
            ({ ts1 with lastUpdate := now },
             [.editAttempt ts1.messageId formatted (.ok true)])
          else
            ({ ts1 with usedMarkdown := some false },
             [.editAttempt ts1.messageId formatted (.ok false)])
        | .failed => (ts1, [.editAttempt ts1.messageId formatted .failed])
      else (ts1, [])
    else (ts, [])
  | .stepFinish edit =>
    let ts1 := { ts with timeoutPending := false }
    let formatted := formatTextPart ts1.content
    if jsTrim formatted ≠ [] then
      (ts1, [.editAttempt ts1.messageId formatted edit])
    else (ts1, [])

/-- Run a sequence of stream events from a starting state, collecting the
Telegram calls in order. -/
def runStream (ts : TextStreamState) : List StreamEvent → TextStreamState × List StreamAction
  | [] => (ts, [])
  | ev :: evs =>
    let r := textStep ts ev
    let rest := runStream r.1 evs
    (rest.1, r.2 ++ rest.2)

/-- Whether an action is an edit delivered with markdown. -/
def actionUsedMarkdown : StreamAction → Bool
  | .editAttempt _ _ (.ok true) => true
  | _ => false

/-- Whether an action is an edit whose markdown attempt failed and which was
delivered as plain text. -/
def actionMarkdownFailed : StreamAction → Bool
  | .editAttempt _ _ (.ok false) => true
  | _ => false

/-- Whether a stream event is a step-finish event. -/
def isStepFinishEvent : StreamEvent → Bool
  | .stepFinish _ => true
  | _ => false

/-- Modelled from the claim: once an edit in the trace has its markdown
attempt fail, every later edit is delivered as plain text (no later edit
uses markdown). -/
def plainAfterFailureClaim (acts : List StreamAction) : Prop :=
  ∀ i j : Fin acts.length, (i : Nat) < j →
    actionMarkdownFailed (acts.get i) → ¬ actionUsedMarkdown (acts.get j)

/-! ### icloud-integration.ts: message classification order (claim C5) -/

/-- The classification a text message can receive in handleTelegramMessage,
in the order the source tests for them. -/
inductive Route where
  | interrupt
  | cmdConnect
  | cmdVersion
  | cmdModel
  | cmdPs
  | cmdCap
  | cmdRestart
  | cmdUpgrade
  | cmdStart
  | cmdStop
  | cmdDev
  | cmdUse
  | cmdInterrupt
  | cmdRename
  | sessionCommand
  | freetextAnswer
  | prompt (cancelledQuestion cancelledPermission : Bool)
deriving DecidableEq

/-- Whether the first character of a string is JavaScript whitespace. -/
def wsHead : Str → Bool
  | [] => false
  | c :: _ => isJsWhitespace c

/-- A regex of the source shaped caret slash-command, optionally whitespace
plus a non-empty argument, dollar, applied to an already-trimmed string:
either the exact command, or the command followed by whitespace. -/
def matchCmdOptArg (cmd : Str) (t : Str) : Bool :=
  t == cmd || (cmd.isPrefixOf t && wsHead (t.drop cmd.length))

/-- A regex of the source shaped caret slash-command, whitespace plus a
non-empty argument, dollar, applied to an already-trimmed string. -/
def matchCmdReqArg (cmd : Str) (t : Str) : Bool :=
  cmd.isPrefixOf t && wsHead (t.drop cmd.length)

/-- The interrupt-command regex: slash interrupt or slash int, optionally
followed by whitespace and digits, applied to an already-trimmed string. -/
def matchInterruptCmd (t : Str) : Bool :=
  t == strLit (r"/interrupt") || t == strLit (r"/int") ||
    (matchCmdReqArg (strLit (r"/interrupt")) t &&
      (jsTrimStart (t.drop 10)).all (·.isDigit)) ||
    (matchCmdReqArg (strLit (r"/int")) t &&
      (jsTrimStart (t.drop 4)).all (·.isDigit))

/-- The classification chain of handleTelegramMessage in the main module of
icloud-integration.ts, in source order, for a text payload that already
passed the bot, date and thread filters.  The boolean flags carry whether a
freetext answer is outstanding and whether a pending question or permission
exists for the thread key; the prompt route records which pending
interactions would be cancelled before submission. -/
def routeMessage (awaitingFreetext hasPendingQuestion hasPendingPermission : Bool)
    (messageText : Str) : Route :=
  let t := jsTrim messageText
  if jsToLower t == strLit (r"x") then .interrupt
  else if t == strLit (r"/connect") then .cmdConnect
  else if t == strLit (r"/version") then .cmdVersion
  else if matchCmdOptArg (strLit (r"/model")) t then .cmdModel
  else if t == strLit (r"/ps") then .cmdPs
  else if matchCmdReqArg (strLit (r"/cap")) t then .cmdCap
  else if t == strLit (r"/restart") then .cmdRestart
  else if t == strLit (r"/upgrade") then .cmdUpgrade
  else if matchCmdReqArg (strLit (r"/start")) t then .cmdStart
  else if matchCmdReqArg (strLit (r"/stop")) t then .cmdStop
  else if t == strLit (r"/dev") then .cmdDev
  else if (strLit (r"/use ")).isPrefixOf messageText then .cmdUse
  else if matchInterruptCmd t then .cmdInterrupt
  else if matchCmdOptArg (strLit (r"/rename")) t then .cmdRename
  else if matchCmdOptArg (strLit (r"/build")) t ||
      matchCmdOptArg (strLit (r"/plan")) t ||
      matchCmdOptArg (strLit (r"/review")) t then .sessionCommand
  else if awaitingFreetext && !messageText.isEmpty then .freetextAnswer
  else .prompt hasPendingQuestion hasPendingPermission

/-- Whether a text matches any classification branch strictly before the
freetext-answer check, in the source order of handleTelegramMessage. -/
def matchesBeforeFreetext (messageText : Str) : Bool :=
  let t := jsTrim messageText
  jsToLower t == strLit (r"x") ||
    t == strLit (r"/connect") ||
    t == strLit (r"/version") ||
    matchCmdOptArg (strLit (r"/model")) t ||
    t == strLit (r"/ps") ||
    matchCmdReqArg (strLit (r"/cap")) t ||
    t == strLit (r"/restart") ||
    t == strLit (r"/upgrade") ||
    matchCmdReqArg (strLit (r"/start")) t ||
    matchCmdReqArg (strLit (r"/stop")) t ||
    t == strLit (r"/dev") ||
    (strLit (r"/use ")).isPrefixOf messageText ||
    matchInterruptCmd t ||
    matchCmdOptArg (strLit (r"/rename")) t ||
    matchCmdOptArg (strLit (r"/build")) t ||
    matchCmdOptArg (strLit (r"/plan")) t ||
    matchCmdOptArg (strLit (r"/review")) t

/-! ### question-handler.ts: question prompts and answer collection
(claim C6) -/

/-- One selectable option of a question. -/
structure QuestionOption where
  label : Str
  description : Str
deriving DecidableEq

/-- One question of a question request. -/
structure Question where
  question : Str
  header : Str
  options : List QuestionOption
deriving DecidableEq

/-- The PendingQuestionContext record of question-handler.ts.  The answers
record (a JavaScript object keyed by question index) is modelled as an
association list. -/
structure PendingQuestionCtx where
  requestId : Str
  questions : List Question
  answers : List (Nat × List Str)
  totalQuestions : Nat
  answeredCount : Nat
  messageIds : List Int
  awaitingFreetext : Option Nat
deriving DecidableEq

/-- Lookup in the answers record. -/
def lookupAnswer (answers : List (Nat × List Str)) (i : Nat) : Option (List Str) :=
  (answers.find? (fun p => p.1 == i)).map (·.2)

/-- Assignment into the answers record: replace an existing entry or append
a new one. -/
def setAnswer (answers : List (Nat × List Str)) (i : Nat) (v : List Str) :
    List (Nat × List Str) :=
  if answers.any (fun p => p.1 == i) then
    answers.map (fun p => if p.1 == i then (i, v) else p)
  else answers ++ [(i, v)]

/-- The ordered answers array built on completion: for each question index,
the recorded selection or the empty list. -/
def orderedAnswers (ctx : PendingQuestionCtx) : List (List Str) :=
  (List.range ctx.questions.length).map fun i => (lookupAnswer ctx.answers i).getD []

/-- One inline keyboard button. -/
structure KbButton where
  text : Str
  callback_data : Str
deriving DecidableEq

/-- Decimal rendering of a natural number as a character list. -/
def natStr (n : Nat) : Str := (Nat.repr n).toList

/-- Decimal rendering of an integer as a character list. -/
def intStr (n : Int) : Str := (Int.repr n).toList

/-- The thread key used by question-handler.ts: chatId, a colon, and the
thread id or the literal main. -/
def threadKeyOf (chatId : Int) (threadId : Option Int) : Str :=
  intStr chatId ++ ':' :: (threadId.map intStr).getD (strLit (r"main"))

/-- The callback data of one option button: the q marker, the thread key,
the question index and the option index, colon-separated. -/
def questionCallbackData (threadKey : Str) (qIdx : Nat) (opt : Str) : Str :=
  'q' :: ':' :: threadKey ++ ':' :: natStr qIdx ++ ':' :: opt

/-- The button list built for one question by showQuestionButtons: the first
seven options (labels cut to 64 characters) followed by the Other button. -/
def questionButtons (threadKey : Str) (qIdx : Nat) (q : Question) : List KbButton :=
  (q.options.take 7).mapIdx
    (fun optIdx opt =>
      { text := opt.label.take 64
        callback_data := questionCallbackData threadKey qIdx (natStr optIdx) }) ++
  [{ text := strLit (r"Other")
     callback_data := questionCallbackData threadKey qIdx (strLit (r"other")) }]

/-- buildInlineKeyboard from telegram.ts: pack buttons into rows of the
given column count, appending the final partial row if non-empty. -/
def buildInlineKeyboardRows (buttons : List KbButton) (columns : Nat) :
    List (List KbButton) :=
  let r := buttons.foldl
    (fun (acc : List (List KbButton) × List KbButton) b =>
      let row := acc.2 ++ [b]
      if columns ≤ row.length then (acc.1 ++ [row], []) else (acc.1, row))
    ([], [])
  if r.2 ≠ [] then r.1 ++ [r.2] else r.1

/-- One Telegram message emitted for one question: its text and its inline
keyboard. -/
structure QuestionMessage where
  text : Str
  keyboard : List (List KbButton)
deriving DecidableEq

/-- showQuestionButtons from question-handler.ts: store a fresh pending
context for the thread key (replacing any existing one) and send one
message per question, each carrying the option buttons plus Other in two
columns.  Message sends are modelled as succeeding with the provided ids,
which the source pushes into the context. -/
def showQuestionButtons (chatId : Int) (threadId : Option Int) (requestId : Str)
    (questions : List Question) (sentIds : List Int) :
    PendingQuestionCtx × List QuestionMessage :=
  let threadKey := threadKeyOf chatId threadId
  let ctx : PendingQuestionCtx :=
    { requestId := requestId
      questions := questions
      answers := []
      totalQuestions := questions.length
      answeredCount := 0
      messageIds := sentIds.take questions.length
      awaitingFreetext := none }
  let messages := questions.mapIdx
    (fun i q =>
      { text := '*' :: q.header ++ '*' :: '\n' :: q.question
        keyboard := buildInlineKeyboardRows (questionButtons threadKey i q) 2 })
  (ctx, messages)

/-- The completion payload handed back to the caller when all questions are
answered: the request id and the ordered answers. -/
structure QuestionReply where
  requestId : Str
  answers : List (List Str)
deriving DecidableEq

/-- The label recorded for a numeric option selection: the option's label,
or the fallback Option n+1 text when the index is out of range. -/
def optionLabelOf (q : Question) (optIdx : Nat) : Str :=
  ((q.options.get? optIdx).map (·.label)).getD
    (strLit (r"Option ") ++ natStr (optIdx + 1))

/-- The après-parse core of handleQuestionCallback from question-handler.ts
for a context found under the thread key.  The option value is the numeric
option index, or none for the Other token.  The first component is the map
entry after the call (none when the pending record was deleted), the second
the completion payload when all questions are answered. -/
def handleOptionSelect (ctx : PendingQuestionCtx) (questionIndex : Nat)
    (optionValue : Option Nat) :
    Option PendingQuestionCtx × Option QuestionReply :=
  match ctx.questions.get? questionIndex with
  | none => (some ctx, none)
  | some question =>
    match optionValue with
    | none =>
      (some { ctx with awaitingFreetext := some questionIndex }, none)
    | some optIdx =>
      let selectedLabel := optionLabelOf question optIdx
      let ctx1 :=
        { ctx with
            answers := setAnswer ctx.answers questionIndex [selectedLabel]
            answeredCount := ctx.answeredCount + 1 }
      if ctx1.totalQuestions ≤ ctx1.answeredCount then
        (none, some { requestId := ctx1.requestId, answers := orderedAnswers ctx1 })
      else (some ctx1, none)

/-- handleFreetextAnswer from question-handler.ts for a context found under
the thread key: record the typed text as the answer to the question marked
awaitingFreetext, clear the flag, and complete exactly as the option
path does. -/
def handleFreetext (ctx : PendingQuestionCtx) (text : Str) :
    Option PendingQuestionCtx × Option QuestionReply :=
  match ctx.awaitingFreetext with
  | none => (some ctx, none)
  | some questionIndex =>
    let ctx1 :=
      { ctx with
          answers := setAnswer ctx.answers questionIndex [text]
          answeredCount := ctx.answeredCount + 1
          awaitingFreetext := none }
    if ctx1.totalQuestions ≤ ctx1.answeredCount then
      (none, some { requestId := ctx1.requestId, answers := orderedAnswers ctx1 })
    else (some ctx1, none)

/-- The pending context after an option selection is recorded. -/
def afterOptionCtx (ctx : PendingQuestionCtx) (qIdx : Nat) (lbl : Str) :
    PendingQuestionCtx :=
  { ctx with
      answers := setAnswer ctx.answers qIdx [lbl]
      answeredCount := ctx.answeredCount + 1 }

/-- The pending context after a freetext answer is recorded. -/
def afterFreetextCtx (ctx : PendingQuestionCtx) (fIdx : Nat) (text : Str) :
    PendingQuestionCtx :=
  { ctx with
      answers := setAnswer ctx.answers fIdx [text]
      answeredCount := ctx.answeredCount + 1
      awaitingFreetext := none }

/-! ### Concrete inputs used by witnesses, counterexamples and failing-input
evaluations -/

/-- A concrete device id. -/
def devW : Str := strLit (r"mac-a:/proj")

/-- A concrete pre-election StateRecord with no active device. -/
def stateBeforeW : CoordinatorState :=
  { activeDevice := none
    activeDeviceHeartbeat := 0
    lastUpdateId := 0
    lastModified := 100
    modifiedBy := strLit (r"system")
    foreignChatIds := [] }

/-- A concrete verification re-read showing the caller as active with a
newer modification stamp. -/
def stateVerifyW : CoordinatorState :=
  { activeDevice := some devW
    activeDeviceHeartbeat := 1000000
    lastUpdateId := 0
    lastModified := 1000000
    modifiedBy := devW
    foreignChatIds := [] }

/-- A concrete poll-time world: local database and shared record both at
update id 0, no foreign chats recorded. -/
def pollWorld0 : PollWorld :=
  { localDb := { lastUpdateId := 0 }
    shared :=
      { activeDevice := some devW
        activeDeviceHeartbeat := 0
        lastUpdateId := 0
        lastModified := 0
        modifiedBy := devW
        foreignChatIds := [] } }

/-- A batch with one accepted update, update id 5, from the configured
chat 100. -/
def pollBatchAccepted : List TgUpdate := [{ update_id := 5, chatId := some 100 }]

/-- A batch with two updates from the new foreign chat -1001111 while the
configured chat is 100. -/
def pollBatchForeign : List TgUpdate :=
  [{ update_id := 7, chatId := some (-1001111) },
   { update_id := 8, chatId := some (-1001111) }]

/-- A concrete created text-stream state: Telegram message 5, markdown so
far accepted, no debounce pending. -/
def mdCexStart : TextStreamState :=
  { messageId := 5
    content := strLit (r"hello")
    lastUpdate := 0
    usedMarkdown := some true
    timeoutPending := false }

/-- A concrete event trace for claim C3: an incremental edit whose markdown
attempt fails, a buffered incremental update, and the step-finish flush
whose markdown attempt succeeds. -/
def mdCexEvents : List StreamEvent :=
  [.partUpdated (strLit (r"hello wor")) 3000 .sfailed (.ok false),
   .partUpdated (strLit (r"hello world")) 3500 .sfailed (.ok true),
   .stepFinish (.ok true)]

/-- A concrete buffered-mode stream state used by the C3 witness. -/
def mdBufferedState : TextStreamState :=
  { messageId := 5
    content := strLit (r"hello wor")
    lastUpdate := 3000
    usedMarkdown := some false
    timeoutPending := false }

/-- A concrete non-command text. -/
def plainTextW : Str := strLit (r"hello there")

/-- A concrete single-option question. -/
def questionW : Question :=
  { question := strLit (r"Which colour?")
    header := strLit (r"Pick")
    options := [{ label := strLit (r"blue"), description := strLit (r"the sky") }] }

/-- A concrete pending context with one question, no answers yet, and its
question flagged as awaiting a typed answer. -/
def ctxW : PendingQuestionCtx :=
  { requestId := strLit (r"req-1")
    questions := [questionW]
    answers := []
    totalQuestions := 1
    answeredCount := 0
    messageIds := [10]
    awaitingFreetext := some 0 }

/-- A concrete short reasoning text (13 characters). -/
def reasoningShortW : Str := strLit (r"short thought")

/-- A concrete long reasoning text (61 characters). -/
def reasoningLongW : Str := List.replicate 61 'r'

/-- A concrete parsed state file lacking the foreignChatIds field. -/
def rawNoForeign : RawStateFile :=
  { activeDevice := none
    activeDeviceHeartbeat := 0
    lastUpdateId := 0
    lastModified := 0
    modifiedBy := strLit (r"system")
    foreignChatIds := none }

/-! ## Theorems -/

/-- C8: for every non-empty reasoning part, formatPart renders text of at
most 60 characters in full behind the thinking tag, and renders text of 61
or more characters as a beginning segment (the first 30 characters), an
ellipsis and an end segment (the last 30 characters); the two segments are
disjoint substrings split around the midpoint, since 30 + 30 is strictly
below the length. -/
theorem formatPart_reasoning_rendering (text : Str) (hne : jsTrim text ≠ []) :
    (text.length ≤ 60 → formatReasoningPart text = thinkingTag ++ text) ∧
    (61 ≤ text.length →
      formatReasoningPart text =
        thinkingTag ++ text.take 30 ++ '…' :: text.drop (text.length - 30) ∧
      30 + 30 < text.length) := by
  constructor
  · intro h
    unfold formatReasoningPart
    rw [if_neg hne, if_pos (by simpa [MAX_SEGMENT] using h)]
  · intro h
    refine ⟨?_, by omega⟩
    unfold formatReasoningPart
    rw [if_neg hne, if_neg (by simp only [MAX_SEGMENT]; omega)]
    simp only [MAX_SEGMENT]
    have h1 : (text.take 30).length = 30 := by
      rw [List.length_take]
      omega
    have h2 : (text.drop (text.length - 30)).length = 30 := by
      rw [List.length_drop]
      omega
    rw [h1, h2, if_neg (by omega), if_neg (by omega)]

/-- C8 witness: the two branches evaluated at a 13-character and at a
61-character reasoning text. -/
theorem formatPart_reasoning_rendering_witness :
    formatReasoningPart reasoningShortW = thinkingTag ++ reasoningShortW ∧
    formatReasoningPart reasoningLongW =
      thinkingTag ++ reasoningLongW.take 30 ++ '…' ::
        reasoningLongW.drop (reasoningLongW.length - 30) :=
  ⟨(formatPart_reasoning_rendering reasoningShortW (by decide)).1 (by decide),
   ((formatPart_reasoning_rendering reasoningLongW (by decide)).2 (by decide)).1⟩

/-- C9 counterexample: a topic name of 129 characters is passed to the
Telegram API verbatim, not as its first 125 characters plus an ellipsis as
the claim requires. -/
theorem editForumTopic_no_truncation_cex :
    (editForumTopicParams [] 1 (List.replicate 129 'a')).name ≠
      truncateTopicNameClaim (List.replicate 129 'a') := by
  decide

/-- C9 amended: editForumTopic performs no truncation at all; the topic
name of every length, 128 and 129 included, is placed in the request body
verbatim. -/
theorem editForumTopic_verbatim (chatId : Str) (threadId : Int) (nm : Str) :
    (editForumTopicParams chatId threadId nm).name = nm := rfl

/-- C10: readState is not read-only: when the parsed StateRecord lacks the
foreignChatIds field the migrated record (with the empty list) is written
back to the shared state file before being returned, and when the field is
present nothing is written. -/
theorem readState_migration (raw : RawStateFile) :
    (raw.foreignChatIds = none →
      readState raw = (migrateRaw raw [], some (migrateRaw raw []))) ∧
    (∀ l, raw.foreignChatIds = some l →
      readState raw = (migrateRaw raw l, none)) := by
  constructor
  · intro h
    simp [readState, h]
  · intro l h
    simp [readState, h]

/-- C10 witness: the migration write evaluated at a concrete file missing
the field. -/
theorem readState_migration_witness :
    readState rawNoForeign = (migrateRaw rawNoForeign [], some (migrateRaw rawNoForeign [])) :=
  (readState_migration rawNoForeign).1 rfl

/-- C1: when the first read succeeds and does not show a live leader,
tryBecomeActive writes the StateRecord with itself as active device, the
current time as heartbeat and modification stamp, and itself as modifier;
after the verification re-read it returns Ok true exactly when the re-read
record names the caller as active device and its lastModified is at least
the previously captured one, and Ok false in every other verification
outcome. -/
theorem tryBecomeActive_verification (deviceId : Str) (now : Int)
    (s v : CoordinatorState)
    (hstale : ¬ (jsTruthyStr s.activeDevice ∧
      now - s.activeDeviceHeartbeat < HEARTBEAT_TIMEOUT_MS)) :
    (tryBecomeActive deviceId now (.ok s) (.ok ()) (.ok v)).2 =
      some { s with
               activeDevice := some deviceId
               activeDeviceHeartbeat := now
               lastModified := now
               modifiedBy := deviceId } ∧
    ((tryBecomeActive deviceId now (.ok s) (.ok ()) (.ok v)).1 = .ok true ↔
      (v.activeDevice = some deviceId ∧ s.lastModified ≤ v.lastModified)) ∧
    ((tryBecomeActive deviceId now (.ok s) (.ok ()) (.ok v)).1 = .ok false ↔
      ¬ (v.activeDevice = some deviceId ∧ s.lastModified ≤ v.lastModified)) := by
  simp [tryBecomeActive, hstale]

/-- C1 witness: a standby device with no recorded leader wins the
verification against a re-read showing itself active. -/
theorem tryBecomeActive_verification_witness :
    (tryBecomeActive devW 1000000 (.ok stateBeforeW) (.ok ()) (.ok stateVerifyW)).1 =
      .ok true :=
  ((tryBecomeActive_verification devW 1000000 stateBeforeW stateVerifyW
      (by decide)).2.1).mpr (by decide)

/-- The async try-block of addForeignChatId returns no value, so the Result
always resolves with undefined, never with the boolean true. -/
theorem addForeignChatId_resolves_undef (chatId now : Int) (s : CoordinatorState) :
    (addForeignChatId chatId now s).2 = .ok .undef := by
  unfold addForeignChatId
  split <;> rfl

/-- The new-foreign flag computed by the poll loop is always false: the
strict comparison of the Result value against the boolean literal true can
never succeed. -/
theorem processForeignChats_never_new (ids : List Int) (now : Int) :
    ∀ s, (processForeignChats ids now s).2 = false := by
  induction ids with
  | nil => intro s; rfl
  | cons a l ih =>
    intro s
    have ha := addForeignChatId_resolves_undef a now s
    have hl := ih (addForeignChatId a now s).1
    simp only [processForeignChats, List.foldl] at hl ⊢
    rw [ha] at *
    simpa using hl

/-- addForeignChatId never changes the lastUpdateId field. -/
theorem addForeignChatId_lastUpdateId (chatId now : Int) (s : CoordinatorState) :
    (addForeignChatId chatId now s).1.lastUpdateId = s.lastUpdateId := by
  unfold addForeignChatId
  split <;> rfl

/-- The foreign-chat pass never changes the lastUpdateId field of the
shared record. -/
theorem processForeignChats_lastUpdateId (ids : List Int) (now : Int) :
    ∀ s, (processForeignChats ids now s).1.lastUpdateId = s.lastUpdateId := by
  induction ids with
  | nil => intro s; rfl
  | cons a l ih =>
    intro s
    have hl := ih (addForeignChatId a now s).1
    have ha := addForeignChatId_resolves_undef a now s
    have hfield := addForeignChatId_lastUpdateId a now s
    simp only [processForeignChats, List.foldl, ha, Bool.false_or] at hl ⊢
    omega

/-- C2: the ingest loop never writes lastUpdateId into the shared
StateRecord: for every poll, the shared record's lastUpdateId is unchanged,
while on the concrete failing input (one accepted update with update id 5,
world at update id 0) the id is persisted only into the local per-machine
SQLite database.  The claim that lastUpdateId is persisted in the shared
StateRecord after each accepted update therefore fails on the code. -/
theorem pollFromTelegram_persists_locally_not_shared :
    (∀ cfg useICloud now batch w,
      (pollFromTelegram cfg useICloud now batch w).1.shared.lastUpdateId =
        w.shared.lastUpdateId) ∧
    (pollFromTelegram 100 true 50 pollBatchAccepted pollWorld0).1.localDb.lastUpdateId = 5 ∧
    (pollFromTelegram 100 true 50 pollBatchAccepted pollWorld0).1.shared.lastUpdateId = 0 ∧
    (pollFromTelegram 100 true 50 pollBatchAccepted pollWorld0).2.1 = pollBatchAccepted := by
  refine ⟨?_, by decide, by decide, by decide⟩
  intro cfg useICloud now batch w
  have hn := processForeignChats_never_new (pollLoop cfg batch w.localDb).2.2 now w.shared
  have hu := processForeignChats_lastUpdateId (pollLoop cfg batch w.localDb).2.2 now w.shared
  simp only [pollFromTelegram]
  split
  · simp [hn, hu]
  · rfl

/-- C7: the aggregate foreign-chat warning is never sent: for every poll the
list of warnings emitted is empty, because the new-foreign check compares
the void Result value of addForeignChatId against the boolean literal true.
On the concrete failing input (two updates from the previously unseen
foreign chat -1001111), the id is recorded once in the shared record,
deduplicated, yet no warning message is produced. -/
theorem foreignChat_warning_never_sent :
    (∀ cfg useICloud now batch w,
      (pollFromTelegram cfg useICloud now batch w).2.2 = []) ∧
    (pollFromTelegram 100 true 50 pollBatchForeign pollWorld0).1.shared.foreignChatIds =
      [-1001111] ∧
    (pollFromTelegram 100 true 50 pollBatchForeign pollWorld0).2.2 = [] ∧
    (pollFromTelegram 100 true 50 pollBatchForeign pollWorld0).2.1 = [] := by
  refine ⟨?_, by decide, by decide, by decide⟩
  intro cfg useICloud now batch w
  have hn := processForeignChats_never_new (pollLoop cfg batch w.localDb).2.2 now w.shared
  simp only [pollFromTelegram]
  split
  · simp [hn]
  · rfl

/-- Every index surviving the jsLastIndexOf accumulator is bounded by the
position limit. -/
theorem jsLastIndexOfAux_le (needle : Char) (posLimit : Nat) :
    ∀ (cs : Str) (i : Nat) (best : Option Nat),
      (∀ j, best = some j → j ≤ posLimit) →
      ∀ j, jsLastIndexOfAux needle posLimit i best cs = some j → j ≤ posLimit := by
  intro cs
  induction cs with
  | nil => intro i best hb j hj; exact hb j hj
  | cons c cs ih =>
    intro i best hb j hj
    simp only [jsLastIndexOfAux] at hj
    refine ih (i + 1) _ ?_ j hj
    intro k hk
    by_cases hc : i ≤ posLimit ∧ c = needle
    · rw [if_pos hc] at hk
      cases hk
      exact hc.1
    · rw [if_neg hc] at hk
      exact hb k hk

/-- jsLastIndexOf never returns an index above its position limit. -/
theorem jsLastIndexOf_le (s : Str) (needle : Char) (posLimit : Nat) :
    ∀ j, jsLastIndexOf s needle posLimit = some j → j ≤ posLimit := by
  intro j hj
  exact jsLastIndexOfAux_le needle posLimit s 0 none (by intro k hk; cases hk) j hj

/-- The chosen split index lies between half the limit and the limit. -/
theorem chooseSplitIndex_bounds (remaining : Str) (maxLength : Nat) :
    maxLength / 2 ≤ chooseSplitIndex remaining maxLength ∧
      chooseSplitIndex remaining maxLength ≤ maxLength := by
  have hhalf : maxLength / 2 ≤ maxLength := Nat.div_le_self _ _
  have hnl := jsLastIndexOf_le remaining '\n' maxLength
  have hsp := jsLastIndexOf_le remaining ' ' maxLength
  simp only [chooseSplitIndex]
  cases h1 : jsLastIndexOf remaining '\n' maxLength with
  | none =>
    cases h2 : jsLastIndexOf remaining ' ' maxLength with
    | none => simp only []; omega
    | some k =>
      have hk := hsp k h2
      simp only []
      split <;> omega
  | some i =>
    have hi := hnl i h1
    by_cases hlt : i < maxLength / 2
    · simp only [if_pos hlt]
      cases h2 : jsLastIndexOf remaining ' ' maxLength with
      | none => simp only []; omega
      | some k =>
        have hk := hsp k h2
        simp only []
        split <;> omega
    · simp only [if_neg hlt]
      exact ⟨by omega, hi⟩

/-- Every chunk produced by the splitMessage loop is within the limit. -/
theorem splitMessageGo_chunk_le (maxLength : Nat) :
    ∀ fuel remaining, ∀ c ∈ splitMessageGo maxLength fuel remaining,
      c.length ≤ maxLength := by
  intro fuel
  induction fuel with
  | zero =>
    intro remaining c hc
    simp [splitMessageGo] at hc
  | succ fuel ih =>
    intro remaining c hc
    simp only [splitMessageGo] at hc
    by_cases h0 : remaining.length = 0
    · rw [if_pos h0] at hc
      simp at hc
    · rw [if_neg h0] at hc
      by_cases h1 : remaining.length ≤ maxLength
      · rw [if_pos h1] at hc
        simp only [List.mem_singleton] at hc
        subst hc
        exact h1
      · rw [if_neg h1] at hc
        simp only [List.mem_cons] at hc
        rcases hc with hc | hc
        · subst hc
          have hb := (chooseSplitIndex_bounds remaining maxLength).2
          rw [List.length_take]
          omega
        · exact ih _ c hc

/-- Unfolding of one long-remainder iteration of the splitMessage loop. -/
theorem splitMessageGo_succ_long (maxLength fuel : Nat) (remaining : Str)
    (h : maxLength < remaining.length) :
    splitMessageGo maxLength (fuel + 1) remaining =
      remaining.take (chooseSplitIndex remaining maxLength) ::
        splitMessageGo maxLength fuel
          (jsTrimStart (remaining.drop (chooseSplitIndex remaining maxLength))) := by
  have h0 : ¬ remaining.length = 0 := by omega
  have h1 : ¬ remaining.length ≤ maxLength := by omega
  rw [splitMessageGo]
  rw [if_neg h0, if_neg h1]

/-- C4 amended: splitMessage returns text within the limit as a single
chunk (text of exactly 4096 characters is sent unsplit), every chunk it
produces has at most 4096 characters, and for longer text the first split
point is chooseSplitIndex, which prefers newline over space over a hard
break and always lies between 2048 and 4096; the source considers no
paragraph or sentence boundaries. -/
theorem splitMessage_amended (text : Str) :
    (text.length ≤ 4096 → splitMessage text 4096 = [text]) ∧
    (∀ c ∈ splitMessage text 4096, c.length ≤ 4096) ∧
    (4096 < text.length →
      (splitMessage text 4096).head? =
        some (text.take (chooseSplitIndex text 4096)) ∧
      2048 ≤ chooseSplitIndex text 4096 ∧ chooseSplitIndex text 4096 ≤ 4096) := by
  refine ⟨?_, ?_, ?_⟩
  · intro h
    simp [splitMessage, h]
  · intro c hc
    by_cases h : text.length ≤ 4096
    · simp only [splitMessage, if_pos h, List.mem_singleton] at hc
      subst hc
      exact h
    · simp only [splitMessage, if_neg h] at hc
      exact splitMessageGo_chunk_le 4096 _ _ c hc
  · intro h
    have hb := chooseSplitIndex_bounds text 4096
    have hno : ¬ text.length ≤ 4096 := by omega
    refine ⟨?_, by omega, hb.2⟩
    simp only [splitMessage, if_neg hno]
    rw [splitMessageGo_succ_long _ _ _ (by omega)]
    rfl

/-- C4 witness: a text of exactly 4096 characters is sent as one unsplit
chunk. -/
theorem splitMessage_amended_witness :
    splitMessage (List.replicate 4096 'a') 4096 = [List.replicate 4096 'a'] :=
  (splitMessage_amended (List.replicate 4096 'a')).1
    (le_of_eq (List.length_replicate 4096 'a'))

/-- The jsLastIndexOf accumulator distributes over list append. -/
theorem jsLastIndexOfAux_append (needle : Char) (posLimit : Nat) (xs : Str) :
    ∀ (ys : Str) (i : Nat) (best : Option Nat),
      jsLastIndexOfAux needle posLimit i best (xs ++ ys) =
        jsLastIndexOfAux needle posLimit (i + xs.length)
          (jsLastIndexOfAux needle posLimit i best xs) ys := by
  induction xs with
  | nil =>
    intro ys i best
    simp [jsLastIndexOfAux]
  | cons c cs ih =>
    intro ys i best
    simp only [List.cons_append, jsLastIndexOfAux, List.length_cons, List.append_eq]
    rw [ih]
    congr 1
    omega

/-- The jsLastIndexOf accumulator passes unchanged over a block of
characters different from the needle. -/
theorem jsLastIndexOfAux_replicate (needle : Char) (posLimit : Nat) (c : Char)
    (hc : c ≠ needle) :
    ∀ (n i : Nat) (best : Option Nat),
      jsLastIndexOfAux needle posLimit i best (List.replicate n c) = best := by
  intro n
  induction n with
  | zero => intro i best; rfl
  | succ n ih =>
    intro i best
    rw [List.replicate_succ]
    simp only [jsLastIndexOfAux]
    rw [if_neg (by tauto)]
    exact ih (i + 1) best

/-- The jsLastIndexOf accumulator records an in-range needle position. -/
theorem jsLastIndexOfAux_cons_needle (needle : Char) (posLimit i : Nat)
    (best : Option Nat) (cs : Str) (hi : i ≤ posLimit) :
    jsLastIndexOfAux needle posLimit i best (needle :: cs) =
      jsLastIndexOfAux needle posLimit (i + 1) (some i) cs := by
  simp [jsLastIndexOfAux, hi]

/-- The counterexample text has 4098 characters. -/
theorem splitCexText_length : splitCexText.length = 4098 := by
  unfold splitCexText
  simp only [List.length_append, List.length_cons, List.length_replicate]

/-- On the counterexample text the last newline at or before position 4096
is the single newline at index 4000. -/
theorem jsLastIndexOf_cex_newline :
    jsLastIndexOf splitCexText '\n' 4096 = some 4000 := by
  have hA : ∀ i best, jsLastIndexOfAux '\n' 4096 i best (List.replicate 2500 'A') = best :=
    fun i best => jsLastIndexOfAux_replicate '\n' 4096 'A' (by decide) 2500 i best
  have hB : ∀ i best, jsLastIndexOfAux '\n' 4096 i best (List.replicate 1498 'B') = best :=
    fun i best => jsLastIndexOfAux_replicate '\n' 4096 'B' (by decide) 1498 i best
  have hC : ∀ i best, jsLastIndexOfAux '\n' 4096 i best (List.replicate 97 'C') = best :=
    fun i best => jsLastIndexOfAux_replicate '\n' 4096 'C' (by decide) 97 i best
  unfold jsLastIndexOf splitCexText
  rw [jsLastIndexOfAux_append, hA, List.length_replicate]
  rw [jsLastIndexOfAux_cons_needle '\n' 4096 (0 + 2500) none _ (by omega)]
  rw [jsLastIndexOfAux_cons_needle '\n' 4096 (0 + 2500 + 1) (some (0 + 2500)) _ (by omega)]
  rw [jsLastIndexOfAux_append, hB, List.length_replicate]
  rw [jsLastIndexOfAux_cons_needle '\n' 4096 (0 + 2500 + 1 + 1 + 1498)
    (some (0 + 2500 + 1)) _ (by omega)]
  rw [hC]

/-- On the counterexample text the code chooses split index 4000. -/
theorem chooseSplitIndex_cex : chooseSplitIndex splitCexText 4096 = 4000 := by
  simp only [chooseSplitIndex, jsLastIndexOf_cex_newline]
  norm_num

/-- The first chunk the code produces on the counterexample text is its
first 4000 characters. -/
theorem splitMessage_cex_head :
    (splitMessage splitCexText 4096).head? = some (splitCexText.take 4000) := by
  have hlen := splitCexText_length
  have hno : ¬ splitCexText.length ≤ 4096 := by omega
  simp only [splitMessage, if_neg hno]
  rw [splitMessageGo_succ_long _ _ _ (by omega), chooseSplitIndex_cex]
  rfl

/-- Index 2500 of the counterexample text is a newline. -/
theorem splitCexText_get2500 : splitCexText.get? 2500 = some '\n' := by
  unfold splitCexText
  rw [List.get?_append_right (le_of_eq (List.length_replicate 2500 'A'))]
  rw [List.length_replicate, Nat.sub_self]
  rfl

/-- Index 2501 of the counterexample text is a newline. -/
theorem splitCexText_get2501 : splitCexText.get? 2501 = some '\n' := by
  unfold splitCexText
  rw [List.get?_append_right
    (Nat.le_trans (le_of_eq (List.length_replicate 2500 'A')) (by omega))]
  rw [List.length_replicate, (by omega : (2501 - 2500 : Nat) = 1)]
  rfl

/-- Index 4001 of the counterexample text is the letter following the
single newline, not a newline. -/
theorem splitCexText_get4001 : splitCexText.get? 4001 = some 'C' := by
  unfold splitCexText
  rw [List.get?_append_right
    (Nat.le_trans (le_of_eq (List.length_replicate 2500 'A')) (by omega))]
  rw [List.length_replicate, (by omega : (4001 - 2500 : Nat) = 1500 + 1)]
  rw [List.get?_cons_succ, (by omega : (1500 : Nat) = 1499 + 1), List.get?_cons_succ]
  rw [List.get?_append_right
    (Nat.le_trans (le_of_eq (List.length_replicate 1498 'B')) (by omega))]
  rw [List.length_replicate, (by omega : (1499 - 1498 : Nat) = 0 + 1)]
  rw [List.get?_cons_succ]
  rw [(by omega : (97 : Nat) = 96 + 1), List.replicate_succ]
  rfl

/-- C4 counterexample: on the concrete text with a paragraph boundary at
index 2500 inside the admissible window and a later single newline at index
4000, the code splits at the single newline, so the first chunk does not
end at a paragraph boundary; the claimed paragraph-over-newline preference
fails. -/
theorem splitMessage_no_paragraph_pref_cex : ¬ splitPrefParagraphClaim splitCexText := by
  intro h
  have hpara := h (splitCexText.take 4000) splitMessage_cex_head
    ⟨2500, by omega, by omega, splitCexText_get2500, splitCexText_get2501⟩
  have hlen4 : (splitCexText.take 4000).length = 4000 := by
    rw [List.length_take, splitCexText_length]
    omega
  rw [hlen4] at hpara
  have h2 := hpara.2
  rw [(by omega : (4000 + 1 : Nat) = 4001)] at h2
  rw [splitCexText_get4001] at h2
  simp at h2

/-- One non-step-finish event processed in buffering mode (markdown already
failed, no debounce pending, message created) performs no Telegram call and
changes nothing but the buffered content. -/
theorem textStep_buffered (ts : TextStreamState) (ev : StreamEvent)
    (hmd : ts.usedMarkdown = some false) (hmid : ts.messageId ≠ -1)
    (htm : ts.timeoutPending = false) (hfin : isStepFinishEvent ev = false) :
    (textStep ts ev).2 = [] ∧
    (textStep ts ev).1.messageId = ts.messageId ∧
    (textStep ts ev).1.usedMarkdown = some false ∧
    (textStep ts ev).1.timeoutPending = false := by
  cases ev with
  | partUpdated text now send edit =>
    simp [textStep, hmd, hmid, htm]
  | timerFired now edit =>
    simp [textStep, hmd, htm]
  | stepFinish edit =>
    simp [isStepFinishEvent] at hfin

/-- C3 amended: once a markdown edit fails (usedMarkdown is false) and no
debounce is pending, a run of incremental events containing no step-finish
performs no Telegram call at all — partial updates are only buffered — and
the step-finish event then performs exactly one edit of the same Telegram
message carrying the complete accumulated text, delivered through the
markdown-then-plain retry of editMessage (not forced to plain text). -/
theorem markdown_failure_buffers_until_step_finish
    (ts : TextStreamState) (evs : List StreamEvent)
    (hmd : ts.usedMarkdown = some false) (hmid : ts.messageId ≠ -1)
    (htm : ts.timeoutPending = false)
    (hfin : ∀ e ∈ evs, isStepFinishEvent e = false) :
    (runStream ts evs).2 = [] ∧
    (runStream ts evs).1.messageId = ts.messageId ∧
    (runStream ts evs).1.usedMarkdown = some false ∧
    (∀ o, jsTrim (runStream ts evs).1.content ≠ [] →
      (textStep (runStream ts evs).1 (.stepFinish o)).2 =
        [.editAttempt ts.messageId (runStream ts evs).1.content o]) := by
  induction evs generalizing ts with
  | nil =>
    refine ⟨rfl, rfl, hmd, ?_⟩
    intro o hne
    simp only [runStream] at hne ⊢
    simp [textStep, formatTextPart, hne]
  | cons e evs ih =>
    have hstep := textStep_buffered ts e hmd hmid htm (hfin e (by simp))
    obtain ⟨h1, h2, h3, h4⟩ := hstep
    have ihh := ih (textStep ts e).1 h3 (by rw [h2]; exact hmid) h4
      (fun e' he' => hfin e' (by simp [he']))
    simp only [runStream]
    refine ⟨?_, ?_, ihh.2.2.1, ?_⟩
    · rw [h1, List.nil_append]
      exact ihh.1
    · rw [ihh.2.1, h2]
    · intro o hne
      rw [ihh.2.2.2 o hne, h2]

/-- C3 witness: a buffered-mode stream state receives one more partial
update and performs no Telegram call. -/
theorem markdown_failure_buffers_witness :
    (runStream mdBufferedState
      [.partUpdated (strLit (r"hello world")) 3500 .sfailed (.ok true)]).2 = [] :=
  (markdown_failure_buffers_until_step_finish mdBufferedState
    [.partUpdated (strLit (r"hello world")) 3500 .sfailed (.ok true)]
    rfl (by decide) rfl (by decide)).1

/-- C3 counterexample: after a markdown edit failure the step-finish edit is
still attempted with markdown first, and on a trace where the Telegram API
accepts the complete content as markdown, the final edit uses markdown — so
the claim that all edits after a markdown failure use plain text is false. -/
theorem markdown_failure_final_edit_not_plain_cex :
    ¬ plainAfterFailureClaim (runStream mdCexStart mdCexEvents).2 := by
  simp only [plainAfterFailureClaim]
  decide

/-- C5 counterexample: with a freetext answer outstanding, the single
character x is classified as the interrupt and a /version text as the
version command — not as the freetext answer, as the claim requires. -/
theorem freetext_after_commands_cex :
    routeMessage true false false (strLit (r"x")) = .interrupt ∧
    routeMessage true false false (strLit (r"x")) ≠ .freetextAnswer ∧
    routeMessage true false false (strLit (r"/version")) = .cmdVersion ∧
    routeMessage true false false (strLit (r"/version")) ≠ .freetextAnswer := by
  decide

/-- C5 amended: the freetext-answer check runs after the interrupt and
slash-command branches but before pending-interaction cancellation and
prompt submission: a non-empty text matching no earlier branch is classified
as the freetext answer exactly when a freetext question is outstanding, and
otherwise proceeds to cancellation and prompt submission. -/
theorem route_freetext_after_commands (hq hp : Bool) (text : Str)
    (hne : text.isEmpty = false) (hcmd : matchesBeforeFreetext text = false) :
    routeMessage true hq hp text = .freetextAnswer ∧
    routeMessage false hq hp text = .prompt hq hp := by
  simp only [matchesBeforeFreetext, Bool.or_eq_false_iff] at hcmd
  obtain ⟨hcmd, h17⟩ := hcmd
  obtain ⟨hcmd, h16⟩ := hcmd
  obtain ⟨hcmd, h15⟩ := hcmd
  obtain ⟨hcmd, h14⟩ := hcmd
  obtain ⟨hcmd, h13⟩ := hcmd
  obtain ⟨hcmd, h12⟩ := hcmd
  obtain ⟨hcmd, h11⟩ := hcmd
  obtain ⟨hcmd, h10⟩ := hcmd
  obtain ⟨hcmd, h9⟩ := hcmd
  obtain ⟨hcmd, h8⟩ := hcmd
  obtain ⟨hcmd, h7⟩ := hcmd
  obtain ⟨hcmd, h6⟩ := hcmd
  obtain ⟨hcmd, h5⟩ := hcmd
  obtain ⟨hcmd, h4⟩ := hcmd
  obtain ⟨hcmd, h3⟩ := hcmd
  obtain ⟨h1, h2⟩ := hcmd
  constructor <;>
    simp [routeMessage, h1, h2, h3, h4, h5, h6, h7, h8, h9, h10, h11, h12, h13,
      h14, h15, h16, h17, hne]

/-- C5 witness: an ordinary text while a freetext question is outstanding is
routed as the freetext answer. -/
theorem route_freetext_after_commands_witness :
    routeMessage true false false plainTextW = .freetextAnswer :=
  (route_freetext_after_commands false false plainTextW (by decide) (by decide)).1

/-- C6: showQuestionButtons emits one Telegram message per question, each
keyboard holding at most 7 option buttons plus an Other button (at most 8,
with Other last); an option callback records the selection, and exactly
when the incremented answeredCount reaches totalQuestions the pending
record is deleted and the request id returned with the answers ordered by
question index (the recorded selection, empty for unanswered questions);
otherwise null is returned and the record kept.  The freetext answer path
behaves identically, additionally clearing the awaiting flag. -/
theorem question_protocol (chatId : Int) (threadId : Option Int) (requestId : Str)
    (questions : List Question) (sentIds : List Int)
    (ctx : PendingQuestionCtx) (qIdx optIdx : Nat) (q : Question)
    (hq : ctx.questions.get? qIdx = some q)
    (text : Str) (fIdx : Nat) (hf : ctx.awaitingFreetext = some fIdx) :
    (showQuestionButtons chatId threadId requestId questions sentIds).2.length =
      questions.length ∧
    (∀ i q', (questionButtons (threadKeyOf chatId threadId) i q').length =
        min 7 q'.options.length + 1 ∧
      (questionButtons (threadKeyOf chatId threadId) i q').length ≤ 8 ∧
      ((questionButtons (threadKeyOf chatId threadId) i q').getLast?).map
        (fun b => b.text) = some (strLit (r"Other"))) ∧
    (ctx.totalQuestions ≤ ctx.answeredCount + 1 →
      handleOptionSelect ctx qIdx (some optIdx) =
        (none, some ⟨ctx.requestId,
          orderedAnswers (afterOptionCtx ctx qIdx (optionLabelOf q optIdx))⟩)) ∧
    (ctx.answeredCount + 1 < ctx.totalQuestions →
      handleOptionSelect ctx qIdx (some optIdx) =
        (some (afterOptionCtx ctx qIdx (optionLabelOf q optIdx)), none)) ∧
    (ctx.totalQuestions ≤ ctx.answeredCount + 1 →
      handleFreetext ctx text =
        (none, some ⟨ctx.requestId, orderedAnswers (afterFreetextCtx ctx fIdx text)⟩)) ∧
    (ctx.answeredCount + 1 < ctx.totalQuestions →
      handleFreetext ctx text =
        (some (afterFreetextCtx ctx fIdx text), none)) := by
  refine ⟨?_, ?_, ?_, ?_, ?_, ?_⟩
  · simp [showQuestionButtons]
  · intro i q'
    refine ⟨?_, ?_, ?_⟩
    · simp [questionButtons]
    · have hmin : min 7 q'.options.length ≤ 7 := Nat.min_le_left _ _
      simp only [questionButtons, List.length_append, List.length_mapIdx,
        List.length_take, List.length_singleton]
      omega
    · simp [questionButtons]
  · intro hc
    simp only [handleOptionSelect, hq, afterOptionCtx]
    rw [if_pos (by simpa using hc)]
  · intro hc
    simp only [handleOptionSelect, hq, afterOptionCtx]
    rw [if_neg (by simpa using Nat.not_le.mpr hc)]
  · intro hc
    simp only [handleFreetext, hf, afterFreetextCtx]
    rw [if_pos (by simpa using hc)]
  · intro hc
    simp only [handleFreetext, hf, afterFreetextCtx]
    rw [if_neg (by simpa using Nat.not_le.mpr hc)]

/-- C6 witness: a single-question context completes on the first option
selection, deleting the record and returning the ordered answers. -/
theorem question_protocol_witness :
    handleOptionSelect ctxW 0 (some 0) =
      (none, some ⟨ctxW.requestId,
        orderedAnswers (afterOptionCtx ctxW 0 (optionLabelOf questionW 0))⟩) :=
  ((question_protocol 1 none (strLit (r"req-1")) [questionW] [10] ctxW 0 0 questionW
    (by decide) (strLit (r"typed")) 0 (by decide)).2.2.1) (by decide)
